import Mathlib

/-!
Shallow embedding of the ZÈLE e-commerce backend (src/main.py, src/schemas.py).

Conventions of the embedding:
* Python floats (monetary amounts) are embedded as exact rationals (ℚ); the
  tolerance literal `0.01` of `create_order` is the rational 1/100.  Where a
  claim's concrete decimal input is not exactly representable as an IEEE-754
  double (e.g. 199.99), the instantiation uses the exact rational value of the
  nearest double, stated explicitly.
* The document store gateway (`database.py`: `db`, `create_document`,
  `get_documents`) is not present under src/.  It is modelled from the spec:
  collections are lists of (store id, document) pairs, `insert` appends with a
  fresh id, `find_one`/`get_documents` match filters by field equality, and a
  category pattern `^cat$` with option "i" is matched as a case-insensitive
  anchored full-string (exact) match, per the spec's gateway contract.
* An HTTPException raised by a handler is an `Except.error` carrying the
  status code and detail string; a plain return is `Except.ok`, and FastAPI
  serves it with the route decorator's `status_code` (201 for the POST routes
  modelled here), which the response structures record in `httpStatus`.
-/

namespace ZeleBackend

/-- Product schema (src/schemas.py, class Product). -/
structure Product where
  title : String
  slug : String
  description : String
  short_description : Option String := none
  price : ℚ
  category : String
  colors : List String := []
  sizes : List Int := []
  images : List String := []
  leather : Option String := none
  craftsmanship : Option String := none
  is_featured : Bool := false
deriving DecidableEq

/-- Review schema (src/schemas.py, class Review); `created_at` is an optional
timestamp, modelled as an optional integer. -/
structure Review where
  product_id : String
  name : String
  rating : Int
  comment : String
  created_at : Option Int := none
deriving DecidableEq

/-- OrderItem schema (src/schemas.py, class OrderItem). -/
structure OrderItem where
  product_id : String
  title : String
  price : ℚ
  size : Int
  color : String
  quantity : Int
deriving DecidableEq

/-- Address schema (src/schemas.py, class Address). -/
structure Address where
  full_name : String
  email : String
  phone : Option String := none
  line1 : String
  line2 : Option String := none
  city : String
  state : String
  country : String
  postal_code : String
deriving DecidableEq

/-- Order schema (src/schemas.py, class Order). -/
structure Order where
  items : List OrderItem
  shipping : Address
  subtotal : ℚ := 0
  shipping_cost : ℚ := 0
  total : ℚ := 0
  status : String := "pending"
deriving DecidableEq

/-- Newsletter schema (src/schemas.py, class Newsletter). -/
structure Newsletter where
  email : String
deriving DecidableEq

/-- Modelled from the spec: the document store reached through `database.py`
(absent from src/).  Each collection holds (store id, document) pairs; `nextId`
is the next fresh identifier the store will assign on insert. -/
structure Store where
  product : List (Nat × Product) := []
  review : List (Nat × Review) := []
  order : List (Nat × Order) := []
  newsletter : List (Nat × Newsletter) := []
  nextId : Nat := 0
deriving DecidableEq

/-- Modelled from the spec: `create_document` on the product collection —
assigns the fresh id, appends the document, returns the id via `nextId`. -/
def insertProduct (s : Store) (p : Product) : Store :=
  { s with product := s.product ++ [(s.nextId, p)], nextId := s.nextId + 1 }

/-- Modelled from the spec: `create_document` on the review collection. -/
def insertReview (s : Store) (r : Review) : Store :=
  { s with review := s.review ++ [(s.nextId, r)], nextId := s.nextId + 1 }

/-- Modelled from the spec: `create_document` on the order collection. -/
def insertOrder (s : Store) (o : Order) : Store :=
  { s with order := s.order ++ [(s.nextId, o)], nextId := s.nextId + 1 }

/-- Modelled from the spec: `create_document` on the newsletter collection. -/
def insertNewsletter (s : Store) (n : Newsletter) : Store :=
  { s with newsletter := s.newsletter ++ [(s.nextId, n)], nextId := s.nextId + 1 }

/-- An `HTTPException(status_code, detail)` raised by a handler. -/
structure HError where
  status : Nat
  detail : String
deriving DecidableEq

/-- Validity of a wire id for `bson.ObjectId`: a 24-character hex string. -/
def isValidObjectId (s : String) : Bool :=
  s.length == 24 && s.toList.all fun c =>
    c.isDigit || ("a" ≤ c.toString && c.toString ≤ "f") || ("A" ≤ c.toString && c.toString ≤ "F")

/-- src/main.py `oid`: decode a wire id, raising 400 "Invalid id" when the
string is not a syntactically valid store identifier. -/
def oid (id_str : String) : Except HError String :=
  if isValidObjectId id_str then .ok id_str else .error ⟨400, "Invalid id"⟩

/-- ASCII lower-casing of one character, as the store's case-insensitive "i"
option folds letters. -/
def lowerChar (c : Char) : Char :=
  if 'A' ≤ c ∧ c ≤ 'Z' then Char.ofNat (c.toNat + 32) else c

/-- ASCII lower-casing of a string. -/
def lowerStr (s : String) : String := String.mk (s.data.map lowerChar)

/-- Modelled from the spec: the store's matching of the category pattern
`^cat$` with option "i" built by `list_products` — a case-insensitive anchored
full-string match (the gateway contract says category lookups are
case-insensitive exact matches). -/
def categoryMatches (cat : String) (field : String) : Bool :=
  lowerStr field == lowerStr cat

/-- src/main.py `list_products`: optional category filter (skipped when the
category string is falsy, i.e. empty), optional featured filter; `_id` is
stripped from the returned documents. -/
def list_products (s : Store) (category : Option String) (featured : Option Bool) :
    List Product :=
  let afterCat : List (Nat × Product) :=
    match category with
    | some c => if c.length ≠ 0 then s.product.filter (fun d => categoryMatches c d.2.category) else s.product
    | none => s.product
  let afterFeat : List (Nat × Product) :=
    match featured with
    | some f => afterCat.filter (fun d => d.2.is_featured == f)
    | none => afterCat
  afterFeat.map (·.2)

/-- Response body `{id}` of the 201 create routes. -/
structure CreatedResp where
  httpStatus : Nat
  id : Nat
deriving DecidableEq

/-- src/main.py `create_product`: reject when a document with the payload's
slug exists (400 "Slug already exists"), otherwise insert and return the new
id with status 201. -/
def create_product (s : Store) (p : Product) : Except HError CreatedResp × Store :=
  match s.product.find? (fun d => d.2.slug == p.slug) with
  | some _ => (.error ⟨400, "Slug already exists"⟩, s)
  | none => (.ok ⟨201, s.nextId⟩, insertProduct s p)

/-- A review document as returned by `get_reviews`: the stored fields with the
store id surfaced as a public `id` field. -/
structure ReviewOut where
  id : Nat
  review : Review
deriving DecidableEq

/-- src/main.py `get_reviews`: return every review whose `product_id` field
equals the raw path segment (no identifier decoding), with `_id` replaced by a
public `id` field. -/
def get_reviews (s : Store) (product_id : String) : Except HError (List ReviewOut) :=
  .ok ((s.review.filter (fun d => d.2.product_id == product_id)).map
    (fun d => ⟨d.1, d.2⟩))

/-- src/main.py `add_review`: reject when the payload's `product_id` differs
from the path segment (400 "Mismatched product_id"), otherwise insert. -/
def add_review (s : Store) (product_id : String) (review : Review) :
    Except HError CreatedResp × Store :=
  if review.product_id ≠ product_id then
    (.error ⟨400, "Mismatched product_id"⟩, s)
  else
    (.ok ⟨201, s.nextId⟩, insertReview s review)

/-- The `0.01` monetary tolerance of `create_order`. -/
def tol : ℚ := 1 / 100

/-- The recomputed item sum of `create_order`:
`sum(i.price * i.quantity for i in order.items)`. -/
def calcSubtotal (o : Order) : ℚ :=
  (o.items.map (fun i => i.price * (i.quantity : ℚ))).sum

/-- Response body `{id, status: "received"}` of `create_order`. -/
structure OrderResp where
  httpStatus : Nat
  id : Nat
  status : String
deriving DecidableEq

/-- src/main.py `create_order`: reject when the recomputed item sum differs
from the stated subtotal by more than 0.01 (400 "Subtotal mismatch"), then
when subtotal + shipping_cost differs from the stated total by more than 0.01
(400 "Total mismatch"), otherwise insert the order document. -/
def create_order (s : Store) (o : Order) : Except HError OrderResp × Store :=
  if abs (calcSubtotal o - o.subtotal) > tol then
    (.error ⟨400, "Subtotal mismatch"⟩, s)
  else if abs (o.subtotal + o.shipping_cost - o.total) > tol then
    (.error ⟨400, "Total mismatch"⟩, s)
  else
    (.ok ⟨201, s.nextId, "received"⟩, insertOrder s o)

/-- Response body of `subscribe`; `id` is absent in the already-subscribed
branch.  `httpStatus` is the status FastAPI serves: the route decorator's
`status_code=201` applies to every plain-dict return of the handler. -/
structure SubscribeResp where
  httpStatus : Nat
  status : String
  id : Option Nat
deriving DecidableEq

/-- src/main.py `subscribe`: when a document with the email exists, return
`{status: "already_subscribed"}` without inserting; otherwise insert and
return `{status: "subscribed", id}`.  Both branches are plain returns of a
route declared with `status_code=201`, so both are served with HTTP 201. -/
def subscribe (s : Store) (news : Newsletter) : SubscribeResp × Store :=
  match s.newsletter.find? (fun d => d.2.email == news.email) with
  | some _ => (⟨201, "already_subscribed", none⟩, s)
  | none => (⟨201, "subscribed", some s.nextId⟩, insertNewsletter s news)

/-- The three canned products of src/main.py `seed`. -/
def sampleProducts : List Product :=
  [{ title := "Cap-Toe Oxford in Nero",
     slug := "cap-toe-oxford-nero",
     description := "Handmade cap-toe Oxford crafted in premium full-grain calfskin. Goodyear welted for longevity and comfort.",
     short_description := some "Handmade cap-toe Oxford in black calfskin",
     price := 495,
     category := "formal",
     colors := ["nero", "ebony"],
     sizes := [39, 40, 41, 42, 43, 44, 45],
     images := ["https://images.unsplash.com/photo-1541099649105-f69ad21f3246?q=80&w=1200&auto=format&fit=crop",
                "https://images.unsplash.com/photo-1593032457861-1f1f86c52a3e?q=80&w=1200&auto=format&fit=crop"],
     leather := some "Full-grain calfskin",
     craftsmanship := some "Goodyear welt • Hand-burnished",
     is_featured := true },
   { title := "Handstitched Loafer in Chestnut",
     slug := "handstitched-loafer-chestnut",
     description := "Classic penny loafer with meticulous hand-stitching and cushioned insole for all-day ease.",
     short_description := some "Handstitched chestnut loafer",
     price := 425,
     category := "casual",
     colors := ["chestnut", "mahogany"],
     sizes := [39, 40, 41, 42, 43, 44, 45],
     images := ["https://images.unsplash.com/photo-1598866594230-a7c12756260f?q=80&w=1200&auto=format&fit=crop",
                "https://images.unsplash.com/photo-1560365163-3e8d64e762ef?q=80&w=1200&auto=format&fit=crop"],
     leather := some "Antiqued calf",
     craftsmanship := some "Hand-stitched apron • Blake construction",
     is_featured := true },
   { title := "Wholecut in Espresso",
     slug := "wholecut-espresso",
     description := "Sculpted from a single piece of leather. Minimal seams, maximal elegance.",
     short_description := some "Wholecut in deep espresso",
     price := 545,
     category := "formal",
     colors := ["espresso"],
     sizes := [39, 40, 41, 42, 43, 44, 45],
     images := ["https://images.unsplash.com/photo-1520975682031-c5815e43a916?q=80&w=1200&auto=format&fit=crop"],
     leather := some "Museum calf",
     craftsmanship := some "Hand-dyed patina • Goodyear welt",
     is_featured := false }]

/-- One iteration of the seed loop: skip the canned product when a document
with its slug exists, otherwise insert it and count it. -/
def seedStep (acc : Nat × Store) (p : Product) : Nat × Store :=
  match acc.2.product.find? (fun d => d.2.slug == p.slug) with
  | some _ => acc
  | none => (acc.1 + 1, insertProduct acc.2 p)

/-- src/main.py `seed`: insert each canned product whose slug is absent and
report the number actually inserted. -/
def seed (s : Store) : Nat × Store :=
  sampleProducts.foldl seedStep (0, s)

/-- Observable outcomes of the health check's probes: whether the module-level
`db` handle is non-None, whether the two environment variables are set, and
the result of `db.list_collection_names()` (its list, or the message of the
exception it raised). -/
structure HealthEnv where
  dbIsSome : Bool
  databaseUrlSet : Bool
  databaseNameSet : Bool
  listCollections : Except String (List String)

/-- The structured report returned by the `/test` endpoint. -/
structure HealthReport where
  backend : String
  database : String
  database_url : Option String
  database_name : Option String
  connection_status : String
  collections : List String
deriving DecidableEq

/-- src/main.py `test_database`: every probe failure is rendered as a field
value of the report (never re-raised), and at most the first 10 collection
names are included. -/
def test_database (env : HealthEnv) : HealthReport :=
  if env.dbIsSome then
    match env.listCollections with
    | .ok collections =>
        { backend := "✅ Running",
          database := "✅ Connected & Working",
          database_url := some (if env.databaseUrlSet then "✅ Set" else "❌ Not Set"),
          database_name := some (if env.databaseNameSet then "✅ Set" else "❌ Not Set"),
          connection_status := "Connected",
          collections := collections.take 10 }
    | .error e =>
        { backend := "✅ Running",
          database := "⚠️  Connected but Error: " ++ e.take 50,
          database_url := some (if env.databaseUrlSet then "✅ Set" else "❌ Not Set"),
          database_name := some (if env.databaseNameSet then "✅ Set" else "❌ Not Set"),
          connection_status := "Not Connected",
          collections := [] }
  else
    { backend := "✅ Running",
      database := "⚠️  Available but not initialized",
      database_url := none,
      database_name := none,
      connection_status := "Not Connected",
      collections := [] }

end ZeleBackend

namespace ZeleBackend

/-! Helper notions shared by the proofs. -/

/-- The slugs of the stored product documents, in store order. -/
def storeSlugs (s : Store) : List String := s.product.map (fun d => d.2.slug)

/-- Whether some stored product document has the given slug (the outcome of
the handlers' `find_one({"slug": ...})` truthiness test). -/
def slugExists (s : Store) (sl : String) : Bool :=
  s.product.any (fun d => d.2.slug == sl)

/-- Number of stored product documents carrying the given slug. -/
def slugCount (s : Store) (sl : String) : Nat :=
  (s.product.filter (fun d => d.2.slug == sl)).length

theorem find?_slug_eq_none {s : Store} {sl : String} :
    s.product.find? (fun d => d.2.slug == sl) = none ↔ slugExists s sl = false := by
  unfold slugExists
  rw [List.find?_eq_none]
  exact (List.any_eq_false).symm

theorem slugExists_iff_mem {s : Store} {sl : String} :
    slugExists s sl = true ↔ sl ∈ storeSlugs s := by
  unfold slugExists storeSlugs
  rw [List.any_eq_true]
  constructor
  · rintro ⟨d, hd, he⟩
    exact List.mem_map.mpr ⟨d, hd, by simpa using he⟩
  · intro h
    rcases List.mem_map.mp h with ⟨d, hd, he⟩
    exact ⟨d, hd, by simp [he]⟩

theorem create_product_eq (s : Store) (p : Product) :
    create_product s p =
      if slugExists s p.slug then (.error ⟨400, "Slug already exists"⟩, s)
      else (.ok ⟨201, s.nextId⟩, insertProduct s p) := by
  rcases h : s.product.find? (fun d => d.2.slug == p.slug) with _ | d
  · simp [create_product, h, find?_slug_eq_none.mp h]
  · have hmem := List.mem_of_find?_eq_some h
    have hp := List.find?_some h
    have hx : slugExists s p.slug = true := by
      simp only [slugExists, List.any_eq_true]
      exact ⟨d, hmem, hp⟩
    simp [create_product, h, hx]

theorem storeSlugs_insertProduct (s : Store) (p : Product) :
    storeSlugs (insertProduct s p) = storeSlugs s ++ [p.slug] := by
  simp [storeSlugs, insertProduct]

theorem slugExists_insertProduct (s : Store) (p : Product) (sl : String) :
    slugExists (insertProduct s p) sl = (slugExists s sl || (p.slug == sl)) := by
  simp [slugExists, insertProduct]

theorem slugCount_insertProduct (s : Store) (p : Product) (sl : String) :
    slugCount (insertProduct s p) sl =
      slugCount s sl + if p.slug == sl then 1 else 0 := by
  simp only [slugCount, insertProduct, List.filter_append, List.length_append,
    List.filter_cons, List.filter_nil]
  cases h : (p.slug == sl) <;> simp [h]

theorem slugCount_eq_count (s : Store) (sl : String) :
    slugCount s sl = (storeSlugs s).count sl := by
  simp only [slugCount, storeSlugs, List.count_eq_countP, List.countP_map,
    ← List.countP_eq_length_filter]
  rfl

end ZeleBackend

namespace ZeleBackend

/-! Concrete fixtures used by witnesses and counterexamples. -/

/-- A shipping address fixture. -/
def addr0 : Address :=
  { full_name := "A B", email := "a@b.com", line1 := "1 St", city := "X",
    state := "Y", country := "Z", postal_code := "12345" }

/-- The order item of the spec's order-validation example: price 100,
quantity 2. -/
def item0 : OrderItem :=
  { product_id := "p1", title := "T", price := 100, size := 42, color := "nero",
    quantity := 2 }

/-- A review whose body product_id is "abc". -/
def revAbc : Review := { product_id := "abc", name := "Ann", rating := 5, comment := "Great" }

/-- A review whose body product_id is "xyz". -/
def revXyz : Review := { product_id := "xyz", name := "Ann", rating := 5, comment := "Great" }

/-- A store holding exactly one newsletter subscription, for a@b.com. -/
def subStore : Store := { newsletter := [(0, ⟨"a@b.com"⟩)], nextId := 1 }

/-- C5: adding a review whose payload product_id differs from the path
product_id is rejected with the 400 MismatchedReference error
("Mismatched product_id") and the store is unchanged; when they are equal,
exactly one review document is appended and 201 with the new id is
returned. -/
theorem add_review_reference_check (s : Store) (pid : String) (r : Review) :
    (r.product_id ≠ pid →
      add_review s pid r = (.error ⟨400, "Mismatched product_id"⟩, s)) ∧
    (r.product_id = pid →
      add_review s pid r = (.ok ⟨201, s.nextId⟩, insertReview s r) ∧
      (insertReview s r).review = s.review ++ [(s.nextId, r)] ∧
      (insertReview s r).product = s.product) := by
  refine ⟨fun h => ?_, fun h => ⟨?_, rfl, rfl⟩⟩
  · rw [add_review, if_pos h]
  · rw [add_review, if_neg (by simp [h])]

/-- Witness for C5 at path product_id "abc": payload "xyz" is rejected with
the store untouched, payload "abc" is inserted. -/
theorem add_review_reference_check_witness :
    add_review {} "abc" revXyz = (.error ⟨400, "Mismatched product_id"⟩, ({} : Store)) ∧
    add_review {} "abc" revAbc = (.ok ⟨201, 0⟩, insertReview {} revAbc) :=
  ⟨(add_review_reference_check {} "abc" revXyz).1 (by decide),
   ((add_review_reference_check {} "abc" revAbc).2 rfl).1⟩

/-- C3 counterexample: "abc" is not a syntactically valid store identifier
(the codec `oid` rejects it), yet list-reviews on path product_id "abc"
succeeds with an empty list and add-review on that path succeeds — the
handlers never apply the codec's decode to the path segment, so the claimed
InvalidIdentifier failure does not occur. -/
theorem review_path_id_counterexample :
    isValidObjectId "abc" = false ∧
    oid "abc" = .error ⟨400, "Invalid id"⟩ ∧
    get_reviews {} "abc" = .ok [] ∧
    (add_review {} "abc" revAbc).1 = .ok ⟨201, 0⟩ := by
  refine ⟨by decide, rfl, rfl, ?_⟩
  rw [add_review, if_neg (by decide)]

/-- C3 amended: the product_id path segment of list-reviews and add-review is
used as an opaque string, with no identifier decoding: list-reviews always
returns the reviews whose product_id field equals the raw path string, and
add-review either fails with the MismatchedReference error or succeeds —
never with the codec's InvalidIdentifier error, regardless of the path
string's syntax. -/
theorem review_path_id_amended (s : Store) (pid : String) :
    get_reviews s pid =
      .ok ((s.review.filter (fun d => d.2.product_id == pid)).map
        (fun d => ⟨d.1, d.2⟩)) ∧
    (∀ r : Review, (add_review s pid r).1 = .error ⟨400, "Mismatched product_id"⟩ ∨
      (add_review s pid r).1 = .ok ⟨201, s.nextId⟩) := by
  refine ⟨rfl, fun r => ?_⟩
  by_cases h : r.product_id ≠ pid
  · left; rw [add_review, if_pos h]
  · right; rw [add_review, if_neg h]

/-- C2 counterexample: subscribing an already-subscribed email is served with
HTTP status 201 (the route decorator's status_code applies to every plain
return of the handler), not the claimed 200. -/
theorem subscribe_status_counterexample :
    subscribe subStore ⟨"a@b.com"⟩ = (⟨201, "already_subscribed", none⟩, subStore) ∧
    (subscribe subStore ⟨"a@b.com"⟩).1.httpStatus ≠ 200 := by
  refine ⟨rfl, by decide⟩

/-- C2 amended: a subscribe request for an email with no existing document
returns HTTP 201 with body status "subscribed" and an id, appending exactly
one document; for an already-subscribed email it returns HTTP 201 (not 200)
with body status "already_subscribed", no id field, and no insertion. -/
theorem subscribe_amended (s : Store) (n : Newsletter) :
    ((∀ d ∈ s.newsletter, (d : Nat × Newsletter).2.email ≠ n.email) →
      subscribe s n = (⟨201, "subscribed", some s.nextId⟩, insertNewsletter s n) ∧
      (insertNewsletter s n).newsletter = s.newsletter ++ [(s.nextId, n)]) ∧
    ((∃ d ∈ s.newsletter, (d : Nat × Newsletter).2.email = n.email) →
      subscribe s n = (⟨201, "already_subscribed", none⟩, s)) := by
  constructor
  · intro h
    have hf : s.newsletter.find? (fun d => d.2.email == n.email) = none := by
      rw [List.find?_eq_none]
      intro d hd
      simpa using h d hd
    unfold subscribe
    rw [hf]
    exact ⟨rfl, rfl⟩
  · rintro ⟨d, hd, he⟩
    have hs : (s.newsletter.find? (fun d => d.2.email == n.email)).isSome := by
      rw [List.find?_isSome]
      exact ⟨d, hd, by simp [he]⟩
    rcases Option.isSome_iff_exists.mp hs with ⟨x, hx⟩
    unfold subscribe
    rw [hx]

/-- Witness for C2: a fresh email on the empty store is inserted with id 0 and
status "subscribed"; repeating a@b.com against the store already holding it
returns "already_subscribed" with no id and HTTP 201, leaving the store as
it was. -/
theorem subscribe_amended_witness :
    subscribe {} ⟨"a@b.com"⟩ = (⟨201, "subscribed", some 0⟩, insertNewsletter {} ⟨"a@b.com"⟩) ∧
    subscribe subStore ⟨"a@b.com"⟩ = (⟨201, "already_subscribed", none⟩, subStore) :=
  ⟨((subscribe_amended {} ⟨"a@b.com"⟩).1 (by simp)).1,
   (subscribe_amended subStore ⟨"a@b.com"⟩).2 ⟨(0, ⟨"a@b.com"⟩), by decide, rfl⟩⟩

end ZeleBackend

namespace ZeleBackend

/-- A product in category "formal". -/
def prodFormal : Product :=
  { title := "P1", slug := "p1", description := "d", price := 10, category := "formal" }

/-- A product in category "formalwear". -/
def prodFormalwear : Product :=
  { title := "P2", slug := "p2", description := "d", price := 10, category := "formalwear" }

/-- A store holding one "formal" and one "formalwear" product. -/
def catStore : Store := { product := [(0, prodFormal), (1, prodFormalwear)], nextId := 2 }

/-- C6 counterexample: supplying the empty category string does not select the
documents whose category equals "" — Python truthiness makes `list_products`
skip the category filter entirely, so a document whose category is "formal"
(not equal to "" in any case) is selected. -/
theorem category_filter_counterexample :
    list_products catStore (some "") none = [prodFormal, prodFormalwear] ∧
    prodFormal.category ≠ "" ∧ prodFormalwear.category ≠ "" := by
  exact ⟨rfl, by decide, by decide⟩

/-- C6 amended: for every non-empty category string supplied to
list-products, the category filter selects exactly the documents whose
category field equals the supplied string up to letter case (case-insensitive
anchored full-string match, not substring). -/
theorem list_products_category_amended (s : Store) (cat : String) (h : cat ≠ "") :
    list_products s (some cat) none =
      (s.product.map (·.2)).filter (fun p => lowerStr p.category == lowerStr cat) := by
  have hlen : cat.length ≠ 0 := by
    intro h0
    exact h (String.ext (List.length_eq_zero.mp h0))
  simp only [list_products]
  rw [if_pos hlen, List.filter_map]
  rfl

/-- Witness for C6: filtering `catStore` with category "Formal" selects the
"formal" document and not the "formalwear" one. -/
theorem list_products_category_witness :
    list_products catStore (some "Formal") none = [prodFormal] ∧
    prodFormal.category = "formal" ∧ prodFormalwear.category = "formalwear" := by
  refine ⟨?_, rfl, rfl⟩
  rw [list_products_category_amended catStore "Formal" (by decide)]
  decide

/-- The seed loop's step, rephrased through `slugExists`. -/
theorem seedStep_eq (acc : Nat × Store) (p : Product) :
    seedStep acc p =
      if slugExists acc.2 p.slug then acc else (acc.1 + 1, insertProduct acc.2 p) := by
  rcases h : acc.2.product.find? (fun d => d.2.slug == p.slug) with _ | d
  · simp [seedStep, h, find?_slug_eq_none.mp h]
  · have hmem := List.mem_of_find?_eq_some h
    have hp := List.find?_some h
    have hx : slugExists acc.2 p.slug = true := by
      simp only [slugExists, List.any_eq_true]
      exact ⟨d, hmem, hp⟩
    simp [seedStep, h, hx]

/-- Inserting a product whose slug is absent keeps the slug list duplicate
free. -/
theorem nodup_insert_of_absent {s : Store} {p : Product}
    (h : (storeSlugs s).Nodup) (hab : slugExists s p.slug = false) :
    (storeSlugs (insertProduct s p)).Nodup := by
  rw [storeSlugs_insertProduct]
  have hnm : p.slug ∉ storeSlugs s := by
    intro hm
    rw [slugExists_iff_mem.mpr hm] at hab
    cases hab
  simp [List.nodup_append, h, hnm]

/-- The seed loop preserves duplicate-freedom of the stored slugs. -/
theorem seedFold_nodup (l : List Product) :
    ∀ (c : Nat) (s : Store), (storeSlugs s).Nodup →
      (storeSlugs (l.foldl seedStep (c, s)).2).Nodup := by
  induction l with
  | nil => intro c s h; exact h
  | cons p t ih =>
    intro c s h
    rw [List.foldl_cons, seedStep_eq]
    cases hex : slugExists s p.slug
    · rw [if_neg (by simp [hex])]
      exact ih (c + 1) (insertProduct s p) (nodup_insert_of_absent h hex)
    · rw [if_pos rfl]
      exact ih c s h

/-- The seed loop run on a store where every slug of the list already exists
changes nothing and counts nothing. -/
theorem seedFold_id (l : List Product) :
    ∀ (c : Nat) (s : Store), (∀ p ∈ l, slugExists s p.slug = true) →
      l.foldl seedStep (c, s) = (c, s) := by
  induction l with
  | nil => intro c s _; rfl
  | cons p t ih =>
    intro c s h
    rw [List.foldl_cons, seedStep_eq, if_pos (h p (List.mem_cons_self p t))]
    exact ih c s (fun q hq => h q (List.mem_cons_of_mem p hq))

/-- `slugExists` only depends on the stored documents, not their ids. -/
theorem slugExists_eq_any_docs (s : Store) (sl : String) :
    slugExists s sl = (s.product.map (·.2)).any (fun p => p.slug == sl) := by
  unfold slugExists
  induction s.product with
  | nil => rfl
  | cons d t ih => simp only [List.map_cons, List.any_cons, ih]

/-- Characterization of the seed loop over a list of pairwise-distinct slugs:
the count is the number of list entries whose slug was absent from the
original store, and exactly those entries are appended, in order. -/
theorem seedFold_spec (l : List Product) :
    ∀ (c : Nat) (s : Store), (l.map Product.slug).Nodup →
      (l.foldl seedStep (c, s)).1 =
        c + (l.filter (fun p => !slugExists s p.slug)).length ∧
      (l.foldl seedStep (c, s)).2.product.map (·.2) =
        s.product.map (·.2) ++ l.filter (fun p => !slugExists s p.slug) := by
  induction l with
  | nil => intro c s _; exact ⟨rfl, by simp⟩
  | cons p t ih =>
    intro c s hnd
    have hndt : (t.map Product.slug).Nodup := (List.nodup_cons.mp hnd).2
    have hpt : p.slug ∉ t.map Product.slug := (List.nodup_cons.mp hnd).1
    rw [List.foldl_cons, seedStep_eq]
    cases hex : slugExists s p.slug
    · rw [if_neg (by simp)]
      obtain ⟨h1, h2⟩ := ih (c + 1) (insertProduct s p) hndt
      have hfilter : t.filter (fun q => !slugExists (insertProduct s p) q.slug) =
          t.filter (fun q => !slugExists s q.slug) := by
        apply List.filter_congr
        intro q hq
        have hne : p.slug ≠ q.slug := fun he => hpt (by
          rw [he]
          exact List.mem_map_of_mem Product.slug hq)
        rw [slugExists_insertProduct]
        simp [hne]
      constructor
      · rw [h1, hfilter]
        simp only [List.filter_cons, hex, Bool.not_false, if_pos]
        simp only [List.length_cons]
        omega
      · rw [h2, hfilter]
        simp only [insertProduct, List.map_append, List.filter_cons, hex,
          Bool.not_false, if_pos]
        simp
    · rw [if_pos rfl]
      obtain ⟨h1, h2⟩ := ih c s hndt
      constructor
      · rw [h1]
        simp [List.filter_cons, hex]
      · rw [h2]
        simp [List.filter_cons, hex]

/-- C4: starting from pairwise-distinct Product slugs, create-product rejects
an existing slug with the 400 SlugConflict error ("Slug already exists") and
leaves the store untouched, slug distinctness is preserved by create-product,
two sequential creates with the same slug leave exactly one document with
that slug, and seed also preserves slug distinctness. -/
theorem slug_unique_invariant (s : Store) (p q : Product)
    (hnd : (storeSlugs s).Nodup) (hq : q.slug = p.slug) :
    (slugExists s p.slug = true →
      create_product s p = (.error ⟨400, "Slug already exists"⟩, s)) ∧
    (storeSlugs (create_product s p).2).Nodup ∧
    slugCount (create_product (create_product s p).2 q).2 p.slug = 1 ∧
    (storeSlugs (seed s).2).Nodup := by
  refine ⟨fun hex => by rw [create_product_eq, if_pos hex], ?_, ?_, ?_⟩
  · cases hex : slugExists s p.slug
    · rw [create_product_eq, if_neg (by simp [hex])]
      exact nodup_insert_of_absent hnd hex
    · rw [create_product_eq, if_pos hex]
      exact hnd
  · cases hex : slugExists s p.slug
    · -- absent: the first create inserts, the second is rejected
      have e1 : (create_product s p).2 = insertProduct s p := by
        rw [create_product_eq, if_neg (by simp [hex])]
      have h2 : slugExists (insertProduct s p) q.slug = true := by
        rw [slugExists_insertProduct, hq]
        simp
      have e2 : (create_product (insertProduct s p) q).2 = insertProduct s p := by
        rw [create_product_eq, if_pos h2]
      have h0 : slugCount s p.slug = 0 := by
        rw [slugCount_eq_count]
        refine List.count_eq_zero.mpr ?_
        intro hm
        rw [slugExists_iff_mem.mpr hm] at hex
        cases hex
      rw [e1, e2, slugCount_insertProduct, h0]
      simp
    · -- present: both creates are rejected, the store keeps its one document
      have e1 : (create_product s p).2 = s := by
        rw [create_product_eq, if_pos hex]
      have e2 : (create_product s q).2 = s := by
        rw [create_product_eq, if_pos (by rw [hq]; exact hex)]
      rw [e1, e2, slugCount_eq_count]
      exact List.count_eq_one_of_mem hnd (slugExists_iff_mem.mp hex)
  · exact seedFold_nodup sampleProducts 0 s hnd

/-- Witness for C4 with the "p1" product: on the empty store the double create
leaves exactly one "p1" document, a create against a store already holding
the slug is rejected unchanged, and seeding the empty store yields distinct
slugs. -/
theorem slug_unique_invariant_witness :
    slugCount (create_product (create_product {} prodFormal).2 prodFormal).2
      prodFormal.slug = 1 ∧
    (storeSlugs (seed ({} : Store)).2).Nodup ∧
    create_product (create_product {} prodFormal).2 prodFormal =
      (.error ⟨400, "Slug already exists"⟩, (create_product ({} : Store) prodFormal).2) :=
  ⟨(slug_unique_invariant {} prodFormal prodFormal (by decide) rfl).2.2.1,
   (slug_unique_invariant {} prodFormal prodFormal (by decide) rfl).2.2.2,
   (slug_unique_invariant (create_product {} prodFormal).2 prodFormal prodFormal
      (by decide) rfl).1 (by decide)⟩

/-- C7: seed inserts exactly the canned products whose slug is absent (in
order) and reports their number; once every canned slug exists — in
particular after any first seed — seed reports 0 and changes nothing. -/
theorem seed_idempotent (s : Store) :
    (seed s).1 = (sampleProducts.filter (fun p => !slugExists s p.slug)).length ∧
    (seed s).2.product.map (·.2) =
      s.product.map (·.2) ++ sampleProducts.filter (fun p => !slugExists s p.slug) ∧
    ((∀ p ∈ sampleProducts, slugExists s p.slug = true) → seed s = (0, s)) ∧
    (seed (seed s).2).1 = 0 ∧
    (seed (seed s).2).2 = (seed s).2 := by
  have hnd : (sampleProducts.map Product.slug).Nodup := by decide
  obtain ⟨h1, h2⟩ := seedFold_spec sampleProducts 0 s hnd
  have hall : ∀ p ∈ sampleProducts, slugExists (seed s).2 p.slug = true := by
    intro p hp
    rw [slugExists_eq_any_docs]
    rw [List.any_eq_true]
    cases hex : slugExists s p.slug
    · refine ⟨p, ?_, by simp⟩
      rw [show (seed s).2 = (sampleProducts.foldl seedStep (0, s)).2 from rfl, h2]
      refine List.mem_append_right _ (List.mem_filter.mpr ⟨hp, by simp [hex]⟩)
    · rw [slugExists_eq_any_docs, List.any_eq_true] at hex
      rcases hex with ⟨d, hd, hds⟩
      refine ⟨d, ?_, hds⟩
      rw [show (seed s).2 = (sampleProducts.foldl seedStep (0, s)).2 from rfl, h2]
      exact List.mem_append_left _ hd
  have hsecond : seed (seed s).2 = (0, (seed s).2) :=
    seedFold_id sampleProducts 0 (seed s).2 hall
  refine ⟨by simpa using h1, h2, fun h => seedFold_id sampleProducts 0 s h, ?_, ?_⟩
  · rw [hsecond]
  · rw [hsecond]

/-- Witness for C7: seeding the empty store inserts all 3 canned products;
seeding again reports 0 and leaves the store exactly as it was. -/
theorem seed_idempotent_witness :
    (seed ({} : Store)).1 = 3 ∧
    seed (seed ({} : Store)).2 = (0, (seed ({} : Store)).2) :=
  ⟨(seed_idempotent {}).1.trans (by decide),
   (seed_idempotent (seed ({} : Store)).2).2.2.1 (by decide)⟩

end ZeleBackend

namespace ZeleBackend

/-- Evaluation of `create_order` when both tolerance checks pass. -/
theorem create_order_of_le (s : Store) (o : Order)
    (h1 : abs (calcSubtotal o - o.subtotal) ≤ tol)
    (h2 : abs (o.subtotal + o.shipping_cost - o.total) ≤ tol) :
    create_order s o = (.ok ⟨201, s.nextId, "received"⟩, insertOrder s o) := by
  rw [create_order, if_neg (not_lt.mpr h1), if_neg (not_lt.mpr h2)]

/-- Evaluation of `create_order` when the subtotal check fails. -/
theorem create_order_subtotal_gt (s : Store) (o : Order)
    (h1 : tol < abs (calcSubtotal o - o.subtotal)) :
    create_order s o = (.error ⟨400, "Subtotal mismatch"⟩, s) := by
  rw [create_order, if_pos h1]

/-- Evaluation of `create_order` when only the total check fails. -/
theorem create_order_total_gt (s : Store) (o : Order)
    (h1 : abs (calcSubtotal o - o.subtotal) ≤ tol)
    (h2 : tol < abs (o.subtotal + o.shipping_cost - o.total)) :
    create_order s o = (.error ⟨400, "Total mismatch"⟩, s) := by
  rw [create_order, if_neg (not_lt.mpr h1), if_pos h2]

/-- The exact rational value of the IEEE-754 double nearest 199.99 — the
number Python actually receives for the JSON literal 199.99
(879565321755689 · 2⁻⁴², about 199.99000000000001). -/
def fl19999 : ℚ := 879565321755689 / 4398046511104

/-- The exact rational value of the IEEE-754 double nearest 209.99
(923545786866729 · 2⁻⁴², about 209.99000000000001). -/
def fl20999 : ℚ := 923545786866729 / 4398046511104

/-- The spec's accepted order: one item 100 × 2, subtotal 200, shipping 10,
total 210. -/
def orderOk : Order :=
  { items := [item0], shipping := addr0, subtotal := 200, shipping_cost := 10,
    total := 210 }

/-- The spec's subtotal=199.99 order, with 199.99 read as the double the
program receives. -/
def order199d : Order :=
  { items := [item0], shipping := addr0, subtotal := fl19999,
    shipping_cost := 10, total := 210 }

/-- The spec's subtotal=199.99 order, with 199.99 read as the exact
decimal. -/
def order199e : Order :=
  { items := [item0], shipping := addr0, subtotal := 19999 / 100,
    shipping_cost := 10, total := 210 }

/-- The spec's total=209.99 order, with 209.99 read as the double the program
receives. -/
def order209d : Order :=
  { items := [item0], shipping := addr0, subtotal := 200, shipping_cost := 10,
    total := fl20999 }

/-- An order exploiting both tolerances at once, built from exactly
representable IEEE-754 doubles so the rational model and the program's float
trace coincide: items sum to 200, subtotal is the double nearest 199.99
(7036522574045512 · 2⁻⁴⁵, about 199.99000000000001) and total is the double
7388014451212944 · 2⁻⁴⁵ (about 209.98000000000002).  Doubles near these
magnitudes are spaced 2⁻⁴⁵ apart, so each check's difference is
351843720888 · 2⁻⁴⁵ ≈ 0.00999999999999 — the largest difference a double at
this magnitude can realize without exceeding 0.01 — and every float
operation the handler performs here (100·2, the additions, the Sterbenz
subtractions) is exact, so the program accepts this order just as the model
does. -/
def orderDrift : Order :=
  { items := [item0], shipping := addr0, subtotal := fl19999,
    shipping_cost := 10, total := 7388014451212944 / 35184372088832 }

/-- An order whose stated subtotal is off by 100. -/
def orderBadSub : Order :=
  { items := [item0], shipping := addr0, subtotal := 300, shipping_cost := 10,
    total := 310 }

/-- An order whose stated total is off by 40. -/
def orderBadTot : Order :=
  { items := [item0], shipping := addr0, subtotal := 200, shipping_cost := 10,
    total := 250 }

/-- C1 counterexample: the order with subtotal 199.99 is accepted, not
rejected with SubtotalMismatch — as the double the program receives, 199.99
is ≈199.99000000000001, so the recomputed difference from 200 is
≈0.00999999999999 ≤ 0.01; and even read as the exact decimal the difference
is exactly 0.01, which the inclusive boundary also accepts. -/
theorem order_subtotal_boundary_counterexample :
    (create_order {} order199d).1 = .ok ⟨201, 0, "received"⟩ ∧
    (create_order {} order199e).1 = .ok ⟨201, 0, "received"⟩ := by
  constructor
  · rw [create_order_of_le {} order199d ?h1 ?h2]
    case h1 =>
      rw [abs_le]
      norm_num [calcSubtotal, order199d, item0, tol, fl19999]
    case h2 =>
      rw [abs_le]
      norm_num [order199d, tol, fl19999]
  · rw [create_order_of_le {} order199e ?h1 ?h2]
    case h1 =>
      rw [abs_le]
      norm_num [calcSubtotal, order199e, item0, tol]
    case h2 =>
      rw [abs_le]
      norm_num [order199e, tol]

/-- C1 amended: create-order accepts an order iff the recomputed item sum is
within 0.01 of the stated subtotal (inclusive) and subtotal+shipping_cost is
within 0.01 of the stated total (inclusive); a subtotal difference above 0.01
fails with SubtotalMismatch, otherwise a total difference above 0.01 fails
with TotalMismatch.  The example with subtotal 200, shipping 10, total 210 is
accepted, and so are the 199.99-subtotal and 209.99-total variants — both
differences land within the inclusive 0.01 boundary once 199.99 and 209.99
are read as the doubles the program receives. -/
theorem order_tolerance_amended (s : Store) (o : Order) :
    ((∃ r, (create_order s o).1 = .ok r) ↔
      (abs (calcSubtotal o - o.subtotal) ≤ tol ∧
       abs (o.subtotal + o.shipping_cost - o.total) ≤ tol)) ∧
    (tol < abs (calcSubtotal o - o.subtotal) →
      create_order s o = (.error ⟨400, "Subtotal mismatch"⟩, s)) ∧
    (abs (calcSubtotal o - o.subtotal) ≤ tol →
      tol < abs (o.subtotal + o.shipping_cost - o.total) →
      create_order s o = (.error ⟨400, "Total mismatch"⟩, s)) ∧
    (abs (calcSubtotal o - o.subtotal) ≤ tol →
      abs (o.subtotal + o.shipping_cost - o.total) ≤ tol →
      create_order s o = (.ok ⟨201, s.nextId, "received"⟩, insertOrder s o)) := by
  refine ⟨⟨?_, ?_⟩, create_order_subtotal_gt s o, create_order_total_gt s o,
    create_order_of_le s o⟩
  · rintro ⟨r, hr⟩
    by_cases h1 : abs (calcSubtotal o - o.subtotal) ≤ tol
    · by_cases h2 : abs (o.subtotal + o.shipping_cost - o.total) ≤ tol
      · exact ⟨h1, h2⟩
      · rw [create_order_total_gt s o h1 (not_le.mp h2)] at hr
        simp at hr
    · rw [create_order_subtotal_gt s o (not_le.mp h1)] at hr
      simp at hr
  · rintro ⟨h1, h2⟩
    exact ⟨⟨201, s.nextId, "received"⟩, by rw [create_order_of_le s o h1 h2]⟩

/-- Witness for C1: the spec's example order is accepted and inserted; an
order whose subtotal is off by 100 fails with the subtotal error; an order
whose total is off by 40 fails with the total error. -/
theorem order_tolerance_witness :
    create_order {} orderOk = (.ok ⟨201, 0, "received"⟩, insertOrder {} orderOk) ∧
    create_order {} orderBadSub = (.error ⟨400, "Subtotal mismatch"⟩, ({} : Store)) ∧
    create_order {} orderBadTot = (.error ⟨400, "Total mismatch"⟩, ({} : Store)) := by
  refine ⟨(order_tolerance_amended {} orderOk).2.2.2 ?_ ?_,
    (order_tolerance_amended {} orderBadSub).2.1 ?_,
    (order_tolerance_amended {} orderBadTot).2.2.1 ?_ ?_⟩
  · rw [abs_le]; norm_num [calcSubtotal, orderOk, item0, tol]
  · rw [abs_le]; norm_num [orderOk, tol]
  · rw [show abs (calcSubtotal orderBadSub - orderBadSub.subtotal) = 100 by
      norm_num [calcSubtotal, orderBadSub, item0]]
    norm_num [tol]
  · rw [abs_le]; norm_num [calcSubtotal, orderBadTot, item0, tol]
  · rw [show abs (orderBadTot.subtotal + orderBadTot.shipping_cost -
        orderBadTot.total) = 40 by norm_num [orderBadTot]]
    norm_num [tol]

/-- C9: an order with an empty items list is accepted — and its document
written — whenever the stated subtotal is within 0.01 of 0 and the stated
total is within 0.01 of subtotal+shipping_cost; no non-empty check exists. -/
theorem empty_items_order (s : Store) (o : Order) (hi : o.items = [])
    (h1 : abs (0 - o.subtotal) ≤ tol)
    (h2 : abs (o.subtotal + o.shipping_cost - o.total) ≤ tol) :
    create_order s o = (.ok ⟨201, s.nextId, "received"⟩, insertOrder s o) ∧
    (insertOrder s o).order = s.order ++ [(s.nextId, o)] := by
  refine ⟨create_order_of_le s o ?_ h2, rfl⟩
  rw [calcSubtotal, hi]
  simpa using h1

/-- An itemless order with subtotal 0, shipping 5, total 5. -/
def emptyOrder : Order :=
  { items := [], shipping := addr0, subtotal := 0, shipping_cost := 5, total := 5 }

/-- Witness for C9: the itemless order is accepted on the empty store and its
document is appended. -/
theorem empty_items_order_witness :
    create_order {} emptyOrder = (.ok ⟨201, 0, "received"⟩, insertOrder {} emptyOrder) ∧
    (insertOrder ({} : Store) emptyOrder).order = [(0, emptyOrder)] :=
  ⟨(empty_items_order {} emptyOrder rfl (by rw [abs_le]; norm_num [emptyOrder, tol])
      (by rw [abs_le]; norm_num [emptyOrder, tol])).1,
   ((empty_items_order {} emptyOrder rfl (by rw [abs_le]; norm_num [emptyOrder, tol])
      (by rw [abs_le]; norm_num [emptyOrder, tol])).2)⟩

/-- C10: the total check of create-order compares the stated total against the
client-supplied subtotal plus shipping_cost, not the recomputed item sum, so
any accepted order's total is within 0.02 of the true item sum plus shipping
— and drifts up to 0.02 are realized: the program-realizable `orderDrift`
(all values exact doubles, every float operation on them exact) is accepted
while its total is 703687441776 · 2⁻⁴⁵ ≈ 0.0199999999999818 away from
calcSubtotal + shipping_cost — the largest drift doubles at this magnitude
admit, and in particular more than 0.01, showing the check cannot be against
the recomputed sum. -/
theorem order_total_drift :
    (∀ (s : Store) (o : Order) (r : OrderResp) (s2 : Store),
      create_order s o = (.ok r, s2) →
      abs (o.total - (calcSubtotal o + o.shipping_cost)) ≤ 2 / 100) ∧
    (create_order {} orderDrift).1 = .ok ⟨201, 0, "received"⟩ ∧
    abs (orderDrift.total - (calcSubtotal orderDrift + orderDrift.shipping_cost)) =
      703687441776 / 35184372088832 ∧
    tol < abs (orderDrift.total - (calcSubtotal orderDrift + orderDrift.shipping_cost)) := by
  refine ⟨?_, ?_, ?_, ?_⟩
  · intro s o r s2 hok
    by_cases h1 : abs (calcSubtotal o - o.subtotal) ≤ tol
    · by_cases h2 : abs (o.subtotal + o.shipping_cost - o.total) ≤ tol
      · have key : o.total - (calcSubtotal o + o.shipping_cost) =
            (-(o.subtotal + o.shipping_cost - o.total)) +
              (-(calcSubtotal o - o.subtotal)) := by ring
        calc abs (o.total - (calcSubtotal o + o.shipping_cost))
            = abs ((-(o.subtotal + o.shipping_cost - o.total)) +
                (-(calcSubtotal o - o.subtotal))) := by rw [key]
          _ ≤ abs (-(o.subtotal + o.shipping_cost - o.total)) +
                abs (-(calcSubtotal o - o.subtotal)) := abs_add _ _
          _ = abs (o.subtotal + o.shipping_cost - o.total) +
                abs (calcSubtotal o - o.subtotal) := by rw [abs_neg, abs_neg]
          _ ≤ tol + tol := add_le_add h2 h1
          _ = 2 / 100 := by norm_num [tol]
      · rw [create_order_total_gt s o h1 (not_le.mp h2)] at hok
        simp at hok
    · rw [create_order_subtotal_gt s o (not_le.mp h1)] at hok
      simp at hok
  · rw [create_order_of_le {} orderDrift ?h1 ?h2]
    case h1 =>
      rw [abs_le]
      norm_num [calcSubtotal, orderDrift, item0, tol, fl19999]
    case h2 =>
      rw [abs_le]
      norm_num [orderDrift, tol, fl19999]
  · rw [show orderDrift.total - (calcSubtotal orderDrift + orderDrift.shipping_cost)
        = -(703687441776 / 35184372088832) by
      norm_num [calcSubtotal, orderDrift, item0, fl19999]]
    rw [abs_neg]
    norm_num
  · rw [show orderDrift.total - (calcSubtotal orderDrift + orderDrift.shipping_cost)
        = -(703687441776 / 35184372088832) by
      norm_num [calcSubtotal, orderDrift, item0, fl19999]]
    rw [abs_neg,
      abs_of_nonneg (by norm_num : (0 : ℚ) ≤ 703687441776 / 35184372088832), tol]
    norm_num

/-- Witness for C10: the triangle bound applied to the concrete accepted
order `orderDrift`. -/
theorem order_total_drift_witness :
    abs (orderDrift.total - (calcSubtotal orderDrift + orderDrift.shipping_cost)) ≤
      2 / 100 :=
  order_total_drift.1 {} orderDrift ⟨201, 0, "received"⟩ (insertOrder {} orderDrift)
    (create_order_of_le {} orderDrift
      (by rw [abs_le]; norm_num [calcSubtotal, orderDrift, item0, tol, fl19999])
      (by rw [abs_le]; norm_num [orderDrift, tol, fl19999]))

end ZeleBackend

namespace ZeleBackend

/-- Reduction of the health check when the db handle is None. -/
theorem test_database_no_db (url name : Bool) (lc : Except String (List String)) :
    test_database ⟨false, url, name, lc⟩ =
      ⟨"✅ Running", "⚠️  Available but not initialized", none, none,
        "Not Connected", []⟩ := rfl

/-- Reduction of the health check when listing collections raises. -/
theorem test_database_list_err (url name : Bool) (e : String) :
    test_database ⟨true, url, name, .error e⟩ =
      ⟨"✅ Running", "⚠️  Connected but Error: " ++ e.take 50,
        some (if url then "✅ Set" else "❌ Not Set"),
        some (if name then "✅ Set" else "❌ Not Set"),
        "Not Connected", []⟩ := rfl

/-- Reduction of the health check when listing collections succeeds. -/
theorem test_database_list_ok (url name : Bool) (cols : List String) :
    test_database ⟨true, url, name, .ok cols⟩ =
      ⟨"✅ Running", "✅ Connected & Working",
        some (if url then "✅ Set" else "❌ Not Set"),
        some (if name then "✅ Set" else "❌ Not Set"),
        "Connected", cols.take 10⟩ := rfl

/-- C8: for every outcome of the health check's probes the handler returns a
structured report rather than raising — an unavailable db handle and a
failing collection listing are each rendered as the value of the `database`
field — and the report's collections field holds at most 10 names. -/
theorem health_check_total (env : HealthEnv) :
    (test_database env).collections.length ≤ 10 ∧
    (test_database env).backend = "✅ Running" ∧
    (env.dbIsSome = false →
      test_database env =
        ⟨"✅ Running", "⚠️  Available but not initialized", none, none,
          "Not Connected", []⟩) ∧
    (∀ e, env.dbIsSome = true → env.listCollections = .error e →
      (test_database env).database = "⚠️  Connected but Error: " ++ e.take 50 ∧
      (test_database env).collections = []) ∧
    (∀ cols, env.dbIsSome = true → env.listCollections = .ok cols →
      (test_database env).collections = cols.take 10 ∧
      (test_database env).database = "✅ Connected & Working") := by
  obtain ⟨db, url, name, lc⟩ := env
  cases db
  · refine ⟨by rw [test_database_no_db]; simp, by rw [test_database_no_db],
      fun _ => rfl, ?_, ?_⟩
    · intro e h he
      cases h
    · intro cols h hc
      cases h
  · rcases lc with e | cols
    · refine ⟨by rw [test_database_list_err]; simp, by rw [test_database_list_err],
        ?_, ?_, ?_⟩
      · intro h
        cases h
      · intro e2 _ he
        injection he with h2
        subst h2
        exact ⟨rfl, rfl⟩
      · intro cols _ hc
        cases hc
    · refine ⟨?_, by rw [test_database_list_ok], ?_, ?_, ?_⟩
      · rw [test_database_list_ok]
        simp
      · intro h
        cases h
      · intro e _ he
        cases he
      · intro cols2 _ hc
        injection hc with h2
        subst h2
        exact ⟨rfl, rfl⟩

/-- A twelve-name collection listing, to exercise the 10-name truncation. -/
def manyCollections : List String :=
  ["a", "b", "c", "d", "e", "f", "g", "h", "i", "j", "k", "l"]

/-- Witness for C8 at the three probe outcomes: missing db handle, a listing
failure rendered into the database field, and a 12-name listing truncated to
at most 10. -/
theorem health_check_total_witness :
    test_database ⟨false, false, false, .ok []⟩ =
      ⟨"✅ Running", "⚠️  Available but not initialized", none, none,
        "Not Connected", []⟩ ∧
    (test_database ⟨true, true, true, .error "boom"⟩).database =
      "⚠️  Connected but Error: " ++ "boom".take 50 ∧
    (test_database ⟨true, true, true, .ok manyCollections⟩).collections.length ≤ 10 :=
  ⟨(health_check_total ⟨false, false, false, .ok []⟩).2.2.1 rfl,
   ((health_check_total ⟨true, true, true, .error "boom"⟩).2.2.2.1 "boom" rfl rfl).1,
   (health_check_total ⟨true, true, true, .ok manyCollections⟩).1⟩

end ZeleBackend
